import Mathlib

/-!
Verification of the capture-session and signal-extraction core of the
interview-capture backend.  Python code is shallowly embedded: floats are
modelled as rationals, stateful objects as explicit state records, fallible
calls as `Except`, and Python `dict` registries as association lists with
insertion-order semantics.
-/

namespace Interview

/-- Python truthiness of an optional number: `None` and `0.0` are falsy,
every other float is truthy (used for `if self.session_start:` and
`if self.start_time ...` checks in the source). -/
def optQTruthy : Option ℚ → Bool
  | none => false
  | some q => decide (q ≠ 0)

/-- Round half to even to the nearest integer, the tie-breaking rule of
Python 3 `round`.  The embedding performs the rounding exactly on rationals
where CPython rounds the decimal reading of a binary float; the two agree on
every value whose decimal expansion the spec discusses. -/
def roundHalfToEven (q : ℚ) : ℤ :=
  let n := ⌊q⌋
  let frac := q - n
  if frac < 1/2 then n
  else if 1/2 < frac then n + 1
  else if n % 2 = 0 then n else n + 1

/-- Python `round(q, ndigits)` on the rational model. -/
def pyRound (q : ℚ) (ndigits : ℕ) : ℚ :=
  (roundHalfToEven (q * 10 ^ ndigits) : ℚ) / 10 ^ ndigits

/-- Arithmetic mean of a list of rationals (`np.mean`); the empty list is
never fed to it by the embedded code paths we verify. -/
def listMean (l : List ℚ) : ℚ := l.sum / l.length

/-! ## EyeTracker (`camera/eye_tracking.py`)

The geometric part of `process_frame` (landmark distances, which involve
square roots) is abstracted by its output: the per-frame averaged eye aspect
ratio `avg_ear`.  The blink decision and the `prev_ear` state threading are
embedded exactly. -/

/-- EAR threshold for blink detection (`EyeTracker.EAR_THRESHOLD = 0.21`). -/
def EAR_THRESHOLD : ℚ := 21/100

/-- Mutable state of `EyeTracker` relevant to blink detection:
`self.prev_ear`, initialised to `1.0` in `__init__`. -/
structure EyeTrackerState where
  prevEar : ℚ := 1
  deriving DecidableEq

/-- One face frame of `EyeTracker.process_frame`, abstracted over the
computed averaged EAR: `blink_detected = avg_ear < EAR_THRESHOLD and
self.prev_ear >= EAR_THRESHOLD`, then `self.prev_ear = avg_ear`. -/
def EyeTracker.processEar (st : EyeTrackerState) (avgEar : ℚ) :
    EyeTrackerState × Bool :=
  (⟨avgEar⟩, decide (avgEar < EAR_THRESHOLD ∧ EAR_THRESHOLD ≤ st.prevEar))

/-- Blink outputs of a run of face frames with the given averaged EARs,
threading `prev_ear` explicitly (initial value comes from the caller). -/
def processEarsAux (prev : ℚ) : List ℚ → List Bool
  | [] => []
  | e :: rest =>
      decide (e < EAR_THRESHOLD ∧ EAR_THRESHOLD ≤ prev) :: processEarsAux e rest

/-- Blink outputs of a fresh `EyeTracker` on a sequence of face frames with
the given averaged EARs (`prev_ear` starts at `1.0`). -/
def EyeTracker.processEars (ears : List ℚ) : List Bool :=
  processEarsAux 1 ears

/-- Number of frames on which a fresh `EyeTracker` reports a blink. -/
def blinkCount (ears : List ℚ) : ℕ :=
  (EyeTracker.processEars ears).count true

/-- The EAR value the blink decision at position `i` compares against:
the stored `prev_ear`, which is `1.0` before the first face frame and the
previous frame's averaged EAR afterwards. -/
def prevEarAt (ears : List ℚ) : ℕ → ℚ
  | 0 => 1
  | i + 1 => ears.getD i 0

/-! ## HeadMovementTracker (`camera/head_movement.py`)

The landmark type and the Euclidean displacement computation
(`_calculate_movement_delta`, irrational in general) are abstracted as a
type `α` with a displacement function `dist`; the state machine around them
(`prev_landmarks`, the `deque(maxlen=5)` history, the classification) is
embedded exactly. -/

/-- Movement threshold `LOW_THRESHOLD = 0.005`. -/
def LOW_THRESHOLD : ℚ := 5/1000

/-- Movement threshold `MEDIUM_THRESHOLD = 0.015`. -/
def MEDIUM_THRESHOLD : ℚ := 15/1000

/-- History window size `HISTORY_SIZE = 5`. -/
def HISTORY_SIZE : ℕ := 5

/-- Mutable state of `HeadMovementTracker`: `self.prev_landmarks` and
`self.movement_history` (a `deque(maxlen=HISTORY_SIZE)`). -/
structure HeadTrackerState (α : Type) where
  prevLandmarks : Option α := none
  movementHistory : List ℚ := []

/-- Append on a `deque(maxlen=HISTORY_SIZE)`: push right, dropping from the
left when the window is full. -/
def dequeAppend (h : List ℚ) (d : ℚ) : List ℚ :=
  let h2 := h ++ [d]
  if HISTORY_SIZE < h2.length then h2.drop (h2.length - HISTORY_SIZE) else h2

/-- Classification `_classify_intensity`. -/
def classifyIntensity (delta : ℚ) : String :=
  if delta < LOW_THRESHOLD then "low"
  else if delta < MEDIUM_THRESHOLD then "medium"
  else "high"

/-- One step of `HeadMovementTracker.process_frame`.  `frame` is `none` when
MediaPipe reports no face landmarks; `dist` abstracts
`_calculate_movement_delta` on the extracted key landmarks.  On a no-face
frame the code sets `self.prev_landmarks = None` and returns
`(False, "low")`; the `movement_history` deque is left untouched. -/
def HeadMovementTracker.processFrame {α : Type} (dist : α → α → ℚ)
    (st : HeadTrackerState α) (frame : Option α) :
    HeadTrackerState α × Bool × String :=
  match frame with
  | none => ({ st with prevLandmarks := none }, false, "low")
  | some lms =>
    match st.prevLandmarks with
    | none => ({ st with prevLandmarks := some lms }, true, "low")
    | some prev =>
      let delta := dist lms prev
      let hist := dequeAppend st.movementHistory delta
      let avgDelta := listMean hist
      (⟨some lms, hist⟩, true, classifyIntensity avgDelta)

/-- Run of `HeadMovementTracker.process_frame` over a frame sequence,
keeping only the final state. -/
def HeadMovementTracker.runFrames {α : Type} (dist : α → α → ℚ)
    (st : HeadTrackerState α) (frames : List (Option α)) : HeadTrackerState α :=
  frames.foldl (fun s f => (HeadMovementTracker.processFrame dist s f).1) st

/-! ## VoiceActivityDetector (`audio/voice_activity.py`)

Chunks are lists of rational samples.  The code computes
`rms = sqrt(mean(chunk ** 2))` and compares `rms > ENERGY_THRESHOLD`; since
both sides are nonnegative this is equivalent to
`mean(chunk ** 2) > ENERGY_THRESHOLD ** 2`, which is how the embedding
states it to stay inside ℚ (the square root itself is irrational).  The
retained `self.rms_values` are likewise represented by their squares. -/

/-- Energy threshold `ENERGY_THRESHOLD = 0.02`. -/
def ENERGY_THRESHOLD : ℚ := 2/100

/-- Square of the RMS energy of a chunk: `mean(audio_chunk ** 2)`. -/
def rmsSq (chunk : List ℚ) : ℚ :=
  listMean (chunk.map (fun x => x ^ 2))

/-- Mutable state of `VoiceActivityDetector`: sample rate, frame counters
and the retained per-chunk RMS values (stored squared, see above). -/
structure VADState where
  sampleRate : ℚ
  totalFrames : ℕ := 0
  voiceFrames : ℕ := 0
  rmsSqValues : List ℚ := []
  deriving DecidableEq

/-- Fresh `VoiceActivityDetector(log_path, sample_rate)`. -/
def VoiceActivityDetector.init (rate : ℚ) : VADState :=
  { sampleRate := rate }

/-- `VoiceActivityDetector.process_chunk(audio_chunk, frames)`: detect voice
by RMS energy (`rms > ENERGY_THRESHOLD`, embedded squared), accumulate the
frame counters and retain the chunk's RMS. -/
def VoiceActivityDetector.processChunk (st : VADState) (chunk : List ℚ)
    (frames : ℕ) : VADState × Bool :=
  let voice := decide (ENERGY_THRESHOLD ^ 2 < rmsSq chunk)
  ({ st with
      totalFrames := st.totalFrames + frames,
      voiceFrames := st.voiceFrames + (if voice then frames else 0),
      rmsSqValues := st.rmsSqValues ++ [rmsSq chunk] }, voice)

/-- Run of `process_chunk` over a list of `(chunk, frames)` pairs. -/
def VoiceActivityDetector.run (st : VADState)
    (chunks : List (List ℚ × ℕ)) : VADState :=
  chunks.foldl (fun s c => (VoiceActivityDetector.processChunk s c.1 c.2).1) st

/-- Average-volume value of `get_statistics`.  `20 * np.log10(avg_rms)` is
transcendental, so the dB value is represented symbolically: `floor` is the
`-100.0` branch and `log sqs` stands for `20 * log10(mean of the RMS values
whose squares are sqs)`. -/
inductive DbValue where
  | floor
  | log (rmsSqValues : List ℚ)
  deriving DecidableEq

/-- Result record of `VoiceActivityDetector.get_statistics`. -/
structure VoiceStats where
  voiceDetected : Bool
  totalSpeakingTimeSec : ℚ
  totalDurationSec : ℚ
  averageVolume : DbValue
  deriving DecidableEq

/-- `VoiceActivityDetector.get_statistics`.  Durations are the frame counts
divided by the sample rate, rounded to two decimals by Python `round`; the
dB value falls to `-100.0` when no chunk was processed or the mean retained
RMS is zero.  Since every retained RMS is nonnegative, `avg_rms > 0` holds
exactly when some retained RMS (equivalently, its square) is positive, which
is how the branch is embedded. -/
def VoiceActivityDetector.getStatistics (st : VADState) : VoiceStats :=
  let totalDuration : ℚ := st.totalFrames / st.sampleRate
  let speakingDuration : ℚ := st.voiceFrames / st.sampleRate
  let avgVolume : DbValue :=
    if st.rmsSqValues.isEmpty then DbValue.floor
    else if st.rmsSqValues.any (fun s => decide (0 < s)) then
      DbValue.log st.rmsSqValues
    else DbValue.floor
  { voiceDetected := decide (0 < speakingDuration),
    totalSpeakingTimeSec := pyRound speakingDuration 2,
    totalDurationSec := pyRound totalDuration 2,
    averageVolume := avgVolume }

/-! ## Python error values

The session code contains several references to names and attributes that do
not exist at run time; they are embedded as explicit error values. -/

/-- Python exceptions raised by the embedded code paths. -/
inductive PyErr where
  | typeError (msg : String)
  | attributeError (msg : String)
  | nameError (msg : String)
  deriving DecidableEq

/-! ## FaceLogger (`backend/app/capture/camera/face_logger.py`)

The two trackers it drives (`app.capture.camera.eye_tracking` and
`app.capture.camera.head_movement`) are abstracted by their returned tuples
`(face_present, blink, eye_direction)` and `(face_present, movement)`.
`JsonWriter` (module `app.session.json_writer`, absent from the sources) is
modelled from the spec: an ordered append-only buffer with `clear`,
`append` and a final `flush`. -/

/-- One face-log entry as built by `FaceLogger.process_frame`. -/
structure FaceLogEntry where
  frameTimestamp : ℚ
  facePresent : Bool
  eyeDirection : String
  blink : Bool
  headMovement : String
  deriving DecidableEq

/-- Mutable state of `FaceLogger`: the session-relative zero time and the
`JsonWriter` buffer (modelled from the spec as an ordered append-only log,
the module being absent from the sources). -/
structure FaceLoggerState where
  logPath : String
  sessionStart : Option ℚ := none
  buffer : List FaceLogEntry := []
  deriving DecidableEq

/-- Constructor call `FaceLogger(log_path)`.  `log_path` is a required
positional argument, so the argument-free call `FaceLogger()` performed by
`CaptureSession.setup` raises `TypeError`. -/
def FaceLogger.make (logPath : Option String) : Except PyErr FaceLoggerState :=
  match logPath with
  | none => Except.error (PyErr.typeError
      ("FaceLogger.__init__ missing required positional argument log_path"))
  | some p => Except.ok { logPath := p }

/-- `FaceLogger.start()`: record the session-relative zero time and clear
the buffer. -/
def FaceLogger.start (st : FaceLoggerState) (now : ℚ) : FaceLoggerState :=
  { st with sessionStart := some now, buffer := [] }

/-- `FaceLogger.process_frame(frame, timestamp)`, abstracted over the two
tracker outputs for the frame.  `face_present` is the permissive union of
the two detections; when it is false the directional fields are forced to
`\x22unknown\x22` and `blink` to false; the relative timestamp is
`timestamp - self.session_start` (0.0 when `session_start` is falsy),
rounded to three decimals; the entry is appended to the log. -/
def FaceLogger.processFrame (st : FaceLoggerState)
    (eyeRes : Bool × Bool × String) (headRes : Bool × String)
    (timestamp : ℚ) : FaceLoggerState × FaceLogEntry :=
  let facePresent := eyeRes.1 || headRes.1
  let relativeTime : ℚ :=
    if optQTruthy st.sessionStart then timestamp - st.sessionStart.getD 0 else 0
  let entry : FaceLogEntry :=
    { frameTimestamp := pyRound relativeTime 3,
      facePresent := facePresent,
      eyeDirection := if facePresent then eyeRes.2.2 else ("unknown"),
      blink := if facePresent then eyeRes.2.1 else false,
      headMovement := if facePresent then headRes.2 else ("unknown") }
  ({ st with buffer := st.buffer ++ [entry] }, entry)

/-! ## SessionManager (`backend/app/session/session_manager.py`) -/

/-- Mutable state of `SessionManager` (only the fields the verified paths
touch are listed; timestamps are rationals on the same timeline as
`time.time()`). -/
structure SessionManagerState where
  basePath : String := "data"
  sessionId : Option String := none
  candidateId : Option String := none
  applicationId : Option ℤ := none
  sessionDir : Option String := none
  sessionStart : Option ℚ := none
  sessionEnd : Option ℚ := none
  frameCount : ℕ := 0
  fpsSamples : List ℚ := []
  deriving DecidableEq

/-- `SessionManager.increment_frame_count()`. -/
def SessionManager.incrementFrameCount (sm : SessionManagerState) :
    SessionManagerState :=
  { sm with frameCount := sm.frameCount + 1 }

/-! ## CaptureSession (`backend/app/api/session.py`) -/

/-- Integrity block of the signals dictionary. -/
structure Integrity where
  faceContinuous : Bool
  multipleFaces : Bool
  audioInterruptions : Bool
  deriving DecidableEq

/-- The `_current_signals` dictionary. -/
structure Signals where
  faceDetected : Bool
  eyeDirection : String
  headMovement : String
  blink : Bool
  voiceActivity : String
  integrity : Integrity
  elapsedSec : ℤ
  sessionActive : Bool
  deriving DecidableEq

/-- `_current_signals` as initialised by `CaptureSession.__init__`. -/
def initialSignals : Signals :=
  { faceDetected := false,
    eyeDirection := "unknown",
    headMovement := "unknown",
    blink := false,
    voiceActivity := "silent",
    integrity :=
      { faceContinuous := true, multipleFaces := false,
        audioInterruptions := false },
    elapsedSec := 0,
    sessionActive := false }

/-- Mutable state of a `CaptureSession`.  `sessionManager` is `none` for
every session this code can build: `__init__` imports `SessionManager` but
never assigns `self.session_manager`, so each later access raises
`AttributeError`. -/
structure CaptureSessionState where
  isRunning : Bool := false
  candidateId : Option String := none
  applicationId : Option ℤ := none
  startTime : Option ℚ := none
  sessionDir : Option String := none
  lastHeartbeat : ℚ
  camera : Option String := none
  faceLogger : Option FaceLoggerState := none
  videoPath : Option String := none
  sessionManager : Option SessionManagerState := none
  currentSignals : Signals := initialSignals
  facePresentCount : ℕ := 0
  totalFrameCount : ℕ := 0
  multipleFacesDetected : Bool := false
  multipleFacesLatch : Bool := false
  audioInterruptions : Bool := false
  deriving DecidableEq

/-- `CaptureSession()` constructed at wall-clock time `now`
(`self.last_heartbeat = time.time()`). -/
def CaptureSession.init (now : ℚ) : CaptureSessionState :=
  { lastHeartbeat := now }

/-- `CaptureSession.update_heartbeat()`. -/
def CaptureSession.updateHeartbeat (st : CaptureSessionState) (now : ℚ) :
    CaptureSessionState :=
  { st with lastHeartbeat := now }

/-- `CaptureSession.setup(candidate_id, application_id)` at wall-clock time
`now`, with `ts` the `strftime(\x22%Y%m%d_%H%M%S\x22)` rendering of that
time.  The session directory and video path are assigned, the camera is
constructed (`CameraCapture` is absent from the sources; modelled from the
spec, whose constructor does not fail), and then `FaceLogger()` is called
without its required `log_path` argument, raising `TypeError`.  The code
after that call is kept for fidelity: the `AudioCapture` line would raise
`AttributeError` (`self.session_manager` is never assigned) and the final
`return str(session_dir)` would raise `NameError` (`session_dir` is not a
local name). -/
def CaptureSession.setup (st : CaptureSessionState) (candidateId : String)
    (applicationId : Option ℤ) (now : ℚ) (ts : String) :
    CaptureSessionState × Except PyErr String :=
  let dir := "backend/data/sessions/" ++ candidateId ++ "_" ++ ts
  let st1 := { st with
      candidateId := some candidateId,
      applicationId := applicationId,
      startTime := some now,
      sessionDir := some dir,
      videoPath := some (dir ++ "/recording.mp4"),
      camera := some (dir ++ "/recording.mp4") }
  match FaceLogger.make none with
  | Except.error e => (st1, Except.error e)
  | Except.ok fl =>
    let st2 := { st1 with faceLogger := some fl }
    match st2.sessionManager with
    | none => (st2, Except.error (PyErr.attributeError
        ("CaptureSession object has no attribute session_manager")))
    | some _ => (st2, Except.error (PyErr.nameError
        ("name session_dir is not defined")))

/-- The dictionary view of a face-log entry that `CaptureSession._on_frame`
reads: the four entry fields plus `entry.get(\x22multiple_faces\x22, False)`.
The `FaceLogger` in the sources never writes a `multiple_faces` key, so
entries coming from it always carry `multipleFaces = false`
(`FaceLogEntry.toFrameEntry`). -/
structure FrameEntry where
  facePresent : Bool
  eyeDirection : String
  blink : Bool
  headMovement : String
  multipleFaces : Bool := false
  deriving DecidableEq

/-- View of a `FaceLogger` entry as read by `_on_frame`:
`entry.get(\x22multiple_faces\x22, False)` returns the default `False`
because the entry has no such key. -/
def FaceLogEntry.toFrameEntry (e : FaceLogEntry) : FrameEntry :=
  { facePresent := e.facePresent,
    eyeDirection := e.eyeDirection,
    blink := e.blink,
    headMovement := e.headMovement,
    multipleFaces := false }

/-- `CaptureSession._on_frame` from the point where the face-log entry is
available (the `self.face_logger.process_frame` call produces `entry`).
The first statement touching session state is
`self.session_manager.increment_frame_count()`, which raises
`AttributeError` when `session_manager` is absent — before any counter or
signal is updated.  Otherwise the counters, the instantaneous
`_multiple_faces_detected`, the sticky `_multiple_faces_latch` and the
signal fields are updated as in the source. -/
def CaptureSession.onFrame (st : CaptureSessionState) (entry : FrameEntry) :
    CaptureSessionState × Except PyErr Unit :=
  match st.sessionManager with
  | none => (st, Except.error (PyErr.attributeError
      ("CaptureSession object has no attribute session_manager")))
  | some sm =>
    let st2 := { st with
        sessionManager := some (SessionManager.incrementFrameCount sm),
        totalFrameCount := st.totalFrameCount + 1,
        facePresentCount :=
          st.facePresentCount + (if entry.facePresent then 1 else 0),
        multipleFacesDetected := entry.multipleFaces,
        multipleFacesLatch :=
          if entry.multipleFaces then true else st.multipleFacesLatch,
        currentSignals := { st.currentSignals with
            faceDetected := entry.facePresent,
            eyeDirection := entry.eyeDirection,
            headMovement := entry.headMovement,
            blink := entry.blink } }
    (st2, Except.ok ())

/-- Frame-callback run: fold `_on_frame` over a list of entries, keeping
the session state (an erroring callback leaves the state unchanged, the
exception being confined to the producer thread). -/
def CaptureSession.runFrames (st : CaptureSessionState)
    (entries : List FrameEntry) : CaptureSessionState :=
  entries.foldl (fun s e => (CaptureSession.onFrame s e).1) st

/-- `CaptureSession.get_current_signals()` read at wall-clock time `now`:
copy the signals dictionary, recompute the face-continuity ratio from the
counters (`face_continuous` is true when no frame was counted, else when
the ratio exceeds 0.9), attach the instantaneous
`_multiple_faces_detected` and the audio-interruption latch, and the
rounded elapsed time. -/
def CaptureSession.getCurrentSignals (st : CaptureSessionState) (now : ℚ) :
    Signals :=
  let elapsed : ℚ :=
    if optQTruthy st.startTime then now - st.startTime.getD 0 else 0
  let faceContinuous : Bool :=
    if 0 < st.totalFrameCount then
      decide ((9 : ℚ)/10 < (st.facePresentCount : ℚ) / (st.totalFrameCount : ℚ))
    else true
  { st.currentSignals with
      integrity :=
        { faceContinuous := faceContinuous,
          multipleFaces := st.multipleFacesDetected,
          audioInterruptions := st.audioInterruptions },
      elapsedSec := roundHalfToEven elapsed }

/-- Summary returned by `CaptureSession.stop()`. -/
structure StopSummary where
  candidateId : Option String
  durationSec : ℚ
  deriving DecidableEq

/-- `CaptureSession.stop()` at wall-clock time `now`.  The running flag is
cleared and the duration computed first; the guarded producer shutdowns are
state-free here; `self.session_manager.end_session()` then raises
`AttributeError` for every session this code can build (the attribute is
never assigned).  The summary of the unreachable success path is kept for
fidelity. -/
def CaptureSession.stop (st : CaptureSessionState) (now : ℚ) :
    CaptureSessionState × Except PyErr StopSummary :=
  let duration : ℚ :=
    if optQTruthy st.startTime then now - st.startTime.getD 0 else 0
  let st1 := { st with isRunning := false }
  match st1.sessionManager with
  | none => (st1, Except.error (PyErr.attributeError
      ("CaptureSession object has no attribute session_manager")))
  | some sm =>
    let sm2 := { sm with sessionEnd := some now }
    let st2 := { st1 with sessionManager := some sm2 }
    (st2, Except.ok { candidateId := st.candidateId,
                      durationSec := pyRound duration 1 })

/-! ## Session registry (`_active_sessions` and module functions)

The Python `dict` is embedded as an association list in insertion order:
lookup finds the unique entry with the key, insertion replaces in place or
appends, deletion removes the key, `next(iter(values()))` is the value of
the first entry. -/

/-- The global registry `_active_sessions : {candidate_id: CaptureSession}`. -/
abbrev Registry := List (String × CaptureSessionState)

/-- Membership test `candidate_id in _active_sessions`. -/
def containsKey (reg : Registry) (cid : String) : Bool :=
  reg.any (fun p => decide (p.1 = cid))

/-- Exact lookup `_active_sessions[candidate_id]` as an option. -/
def lookupReg (reg : Registry) (cid : String) : Option CaptureSessionState :=
  (reg.find? (fun p => decide (p.1 = cid))).map (fun p => p.2)

/-- Keyed insertion `_active_sessions[candidate_id] = session`: replace the
existing entry in place, else append (insertion order of `dict`). -/
def dictInsert (reg : Registry) (cid : String) (v : CaptureSessionState) :
    Registry :=
  if containsKey reg cid then
    reg.map (fun p => if p.1 = cid then (cid, v) else p)
  else reg ++ [(cid, v)]

/-- Python truthiness of the optional `candidate_id` argument: absent
(`None`) and the empty string are falsy. -/
def optStrTruthy : Option String → Bool
  | none => false
  | some s => decide (s ≠ "")

/-- `get_session(candidate_id=None)`: exact lookup when the id is truthy
and registered; otherwise fall back to an arbitrary (first-inserted)
registered session, but only when the id is falsy and the registry is
non-empty; else `None`. -/
def get_session (reg : Registry) (cid : Option String) :
    Option CaptureSessionState :=
  match cid with
  | some c =>
    if c ≠ "" then
      if containsKey reg c then lookupReg reg c else none
    else reg.head?.map (fun p => p.2)
  | none => reg.head?.map (fun p => p.2)

/-- `create_session(candidate_id)` at wall-clock time `now`: register a
fresh `CaptureSession()` unconditionally (no duplicate check here) and
return it. -/
def create_session (reg : Registry) (cid : String) (now : ℚ) :
    Registry × CaptureSessionState :=
  let session := CaptureSession.init now
  (dictInsert reg cid session, session)

/-- `clear_session(candidate_id)`: remove the id from the registry if
present. -/
def clear_session (reg : Registry) (cid : String) : Registry :=
  reg.filter (fun p => decide (p.1 ≠ cid))

/-- Rejection of `POST /api/session/start`: `HTTPException(400, \x22Session
already running for this candidate\x22)` — the spec's
`DuplicateSessionError`. -/
inductive StartError where
  | duplicateSession
  deriving DecidableEq

/-- The session-creation portion of the `start_session` endpoint (the
duplicate check and registration; the subsequent `setup`/`start` calls are
covered by `CaptureSession.setup`): look the id up with `get_session`, and
when an existing running session is found, reject before any mutation;
otherwise register a fresh session. -/
def start_session_create (reg : Registry) (cid : String) (now : ℚ) :
    Registry × Except StartError CaptureSessionState :=
  match get_session reg (some cid) with
  | some existing =>
    if existing.isRunning then (reg, Except.error StartError.duplicateSession)
    else
      let r := create_session reg cid now
      (r.1, Except.ok r.2)
  | none =>
    let r := create_session reg cid now
    (r.1, Except.ok r.2)

/-- One tick of `session_cleanup_task` at wall-clock time `now`: collect
the ids whose heartbeat age exceeds 60 seconds, then for each one attempt
`session.stop()` — whose result, including any exception, is discarded by
the `try/except` — and remove the id from the registry.  The `none` branch
of the lookup cannot occur for a registry with unique keys (a `dict`
guarantees them); it stands for the `KeyError` the surrounding `except`
would swallow. -/
def session_cleanup_tick (reg : Registry) (now : ℚ) : Registry :=
  let toDelete :=
    (reg.filter (fun p => decide (60 < now - p.2.lastHeartbeat))).map
      (fun p => p.1)
  toDelete.foldl
    (fun r cid =>
      match lookupReg r cid with
      | some session =>
        let _stopResult := CaptureSession.stop session now
        clear_session r cid
      | none => r)
    reg

/-! ## Theorems -/

/-- Helper: the blink output at position `i` of a run started with stored
EAR `prev` is the rising-edge test against the stored value, which is
`prev` at the head and the previous element afterwards. -/
theorem processEarsAux_getD (ears : List ℚ) (prev : ℚ) (i : ℕ)
    (h : i < ears.length) :
    (processEarsAux prev ears).getD i false
      = decide (ears.getD i 0 < EAR_THRESHOLD ∧
          EAR_THRESHOLD ≤ (match i with | 0 => prev | j + 1 => ears.getD j 0)) := by
  induction ears generalizing prev i with
  | nil => simp at h
  | cons e rest ih =>
    cases i with
    | zero => simp [processEarsAux]
    | succ j =>
      have hj : j < rest.length := by simpa using h
      have hrec := ih e j hj
      cases j with
      | zero => simpa [processEarsAux] using hrec
      | succ k => simpa [processEarsAux] using hrec

/-- Claim C4, counterexample: the claim predicts zero blinks on the EAR
sequence `[0.18, 0.18, 0.18]`, but a fresh `EyeTracker` starts with
`prev_ear = 1.0`, so its first frame already satisfies
`avg_ear < 0.21 and prev_ear >= 0.21` and fires a blink: the sequence
yields one blink, not zero. -/
theorem blink_zero_claim_counterexample :
    ¬ (blinkCount [18/100, 18/100, 18/100] = 0) := by
  norm_num [blinkCount, EyeTracker.processEars, processEarsAux, EAR_THRESHOLD,
    List.count]

/-- Claim C4, amended: on a sequence of face frames a blink is reported at
position `i` exactly when that frame's averaged EAR is below 0.21 while the
stored previous value is at or above 0.21, where the stored value is the
initialisation `1.0` before the first frame and the previous frame's
averaged EAR afterwards; consequently `[0.30, 0.18, 0.19, 0.25]` yields
exactly one blink and `[0.18, 0.18, 0.18]` also yields exactly one blink
(on its first frame). -/
theorem blink_rising_edge_spec :
    (∀ (ears : List ℚ) (i : ℕ), i < ears.length →
      (EyeTracker.processEars ears).getD i false
        = decide (ears.getD i 0 < EAR_THRESHOLD ∧
            EAR_THRESHOLD ≤ prevEarAt ears i))
    ∧ blinkCount [30/100, 18/100, 19/100, 25/100] = 1
    ∧ blinkCount [18/100, 18/100, 18/100] = 1 := by
  refine ⟨fun ears i h => ?_, ?_, ?_⟩
  · have := processEarsAux_getD ears 1 i h
    cases i with
    | zero => simpa [EyeTracker.processEars, prevEarAt] using this
    | succ j => simpa [EyeTracker.processEars, prevEarAt] using this
  · norm_num [blinkCount, EyeTracker.processEars, processEarsAux,
      EAR_THRESHOLD, List.count]
  · norm_num [blinkCount, EyeTracker.processEars, processEarsAux,
      EAR_THRESHOLD, List.count]

/-- Witness for the amended claim C4 at the singleton sequence `[0.18]`. -/
theorem blink_rising_edge_spec_witness :
    (EyeTracker.processEars [18/100]).getD 0 false
      = decide ((18 : ℚ)/100 < EAR_THRESHOLD ∧
          EAR_THRESHOLD ≤ prevEarAt [18/100] 0) :=
  blink_rising_edge_spec.1 [18/100] 0 (by simp)

/-- Claim C6, counterexample: run the head tracker over a face frame at
displacement 0, a face frame at displacement 1 (the delta `1` enters the
smoothing window) and then a no-face frame.  The no-face frame reports
`face_present = false` but the movement history is still `[1]`, not empty:
only `prev_landmarks` is cleared. -/
theorem head_noface_history_counterexample :
    ((HeadMovementTracker.processFrame (fun a b => |a - b|)
        (HeadMovementTracker.runFrames (fun a b => |a - b|)
          ({} : HeadTrackerState ℚ) [some 0, some 1]) none).2.1 = false)
    ∧ ¬ ((HeadMovementTracker.processFrame (fun a b => |a - b|)
        (HeadMovementTracker.runFrames (fun a b => |a - b|)
          ({} : HeadTrackerState ℚ) [some 0, some 1]) none).1.movementHistory
          = []) := by
  constructor
  · norm_num [HeadMovementTracker.runFrames, HeadMovementTracker.processFrame,
      dequeAppend, listMean, HISTORY_SIZE, List.foldl]
  · norm_num [HeadMovementTracker.runFrames, HeadMovementTracker.processFrame,
      dequeAppend, listMean, HISTORY_SIZE, List.foldl]

/-- Claim C6, amended: a no-face frame resets `prev_landmarks` to `None`
and reports `face_present = false` with intensity `low`, but leaves the
movement-history window untouched; the following face frame therefore
re-seeds `prev_landmarks` and reports `low` without appending a delta. -/
theorem head_noface_spec :
    ∀ (α : Type) (dist : α → α → ℚ) (st : HeadTrackerState α),
      HeadMovementTracker.processFrame dist st none
        = ({ st with prevLandmarks := none }, false, "low")
      ∧ (HeadMovementTracker.processFrame dist st none).1.movementHistory
          = st.movementHistory
      ∧ ∀ lms : α,
          HeadMovementTracker.processFrame dist
              (HeadMovementTracker.processFrame dist st none).1 (some lms)
            = ({ st with prevLandmarks := some lms }, true, "low") := by
  intro α dist st
  exact ⟨rfl, rfl, fun lms => rfl⟩

/-- Claim C3: for every fresh `CaptureSession`, `setup` does not return the
session directory — it raises.  The first failure is the argument-free
`FaceLogger()` call, whose `__init__` requires `log_path`; even past that,
the unassigned `self.session_manager` attribute and the undefined local
`session_dir` in the return statement would raise. -/
theorem setup_raises_spec :
    ∀ (t now : ℚ) (cid ts : String) (app : Option ℤ),
      (CaptureSession.setup (CaptureSession.init t) cid app now ts).2
        = Except.error (PyErr.typeError
            ("FaceLogger.__init__ missing required positional argument log_path")) := by
  intro t now cid ts app
  rfl

/-- Claim C9: when neither tracker detects a face, the logged entry has
`face_present = false`, `eye_direction = unknown`, `blink = false`,
`head_movement = unknown`, while `frame_timestamp` is still the
session-relative time of the frame (`timestamp - session_start`, rounded to
three decimals exactly as for face frames), and the entry is appended to
the log. -/
theorem facelogger_noface_entry_spec :
    ∀ (st : FaceLoggerState) (s ts : ℚ) (b : Bool) (ed hm : String),
      st.sessionStart = some s → s ≠ 0 →
      (FaceLogger.processFrame st (false, b, ed) (false, hm) ts).2
        = { frameTimestamp := pyRound (ts - s) 3, facePresent := false,
            eyeDirection := "unknown", blink := false,
            headMovement := "unknown" }
      ∧ (FaceLogger.processFrame st (false, b, ed) (false, hm) ts).1.buffer
        = st.buffer ++ [(FaceLogger.processFrame st (false, b, ed) (false, hm) ts).2] := by
  intro st s ts b ed hm hs hs0
  constructor
  · simp [FaceLogger.processFrame, optQTruthy, hs, hs0]
  · simp [FaceLogger.processFrame]

/-- Witness for claim C9: a logger started at time 1 logging a no-face
frame at time 3. -/
theorem facelogger_noface_entry_spec_witness :
    (FaceLogger.processFrame
        { logPath := "face_log.json", sessionStart := some 1, buffer := [] }
        (false, true, "center") (false, "high") 3).2
      = { frameTimestamp := pyRound ((3 : ℚ) - 1) 3, facePresent := false,
          eyeDirection := "unknown", blink := false,
          headMovement := "unknown" } :=
  (facelogger_noface_entry_spec
    { logPath := "face_log.json", sessionStart := some 1, buffer := [] }
    1 3 true "center" "high" rfl (by norm_num)).1

/-- Claim C10: `get_session` with a non-empty id that is not a registered
key returns `None` even when other sessions are registered; with a present
key it is the exact lookup; the arbitrary-session fallback (the
first-inserted session) applies exactly when the id is absent (`None` or
empty) and the registry is non-empty. -/
theorem get_session_lookup_spec :
    (∀ (reg : Registry) (cid : String), cid ≠ "" →
        containsKey reg cid = false → get_session reg (some cid) = none)
    ∧ (∀ (reg : Registry) (cid : String), cid ≠ "" →
        containsKey reg cid = true →
        get_session reg (some cid) = lookupReg reg cid)
    ∧ (∀ reg : Registry,
        get_session reg none = reg.head?.map (fun p => p.2)
        ∧ get_session reg (some "") = reg.head?.map (fun p => p.2))
    ∧ get_session ([] : Registry) none = none := by
  refine ⟨fun reg cid h hk => ?_, fun reg cid h hk => ?_, fun reg => ⟨rfl, ?_⟩, rfl⟩
  · simp [get_session, h, hk]
  · simp [get_session, h, hk]
  · simp [get_session]

/-- Witness for claim C10: a one-session registry, looked up with a
different non-empty id. -/
theorem get_session_lookup_spec_witness :
    get_session [("a", CaptureSession.init 0)] (some "b") = none :=
  get_session_lookup_spec.1 [("a", CaptureSession.init 0)] "b" (by decide)
    (by simp [containsKey])

/-- Helper: the RMS-energy square of a chunk is nonnegative. -/
theorem rmsSq_nonneg (chunk : List ℚ) : 0 ≤ rmsSq chunk := by
  unfold rmsSq listMean
  apply div_nonneg
  · apply List.sum_nonneg
    intro x hx
    obtain ⟨y, _, rfl⟩ := List.mem_map.mp hx
    positivity
  · positivity

/-- Helper: dividing a natural count by a positive rate is positive exactly
when the count is. -/
theorem count_div_rate_pos_iff (v : ℕ) (rate : ℚ) (hr : 0 < rate) :
    (0 < (v : ℚ) / rate) ↔ 0 < v := by
  rcases Nat.eq_zero_or_pos v with h0 | hpos
  · simp [h0]
  · have : (0 : ℚ) < (v : ℚ) := by exact_mod_cast hpos
    simp [div_pos this hr, hpos]

/-- Helper: running the voice-activity detector over a chunk trace
accumulates the counters and retained RMS values as list aggregates. -/
theorem vad_run_spec (chunks : List (List ℚ × ℕ)) :
    ∀ st : VADState,
      (VoiceActivityDetector.run st chunks).sampleRate = st.sampleRate
      ∧ (VoiceActivityDetector.run st chunks).totalFrames
          = st.totalFrames + (chunks.map (fun c => c.2)).sum
      ∧ (VoiceActivityDetector.run st chunks).voiceFrames
          = st.voiceFrames + ((chunks.filter
              (fun c => decide (ENERGY_THRESHOLD ^ 2 < rmsSq c.1))).map
                (fun c => c.2)).sum
      ∧ (VoiceActivityDetector.run st chunks).rmsSqValues
          = st.rmsSqValues ++ chunks.map (fun c => rmsSq c.1) := by
  induction chunks with
  | nil => intro st; simp [VoiceActivityDetector.run]
  | cons c rest ih =>
    intro st
    obtain ⟨h1, h2, h3, h4⟩ := ih (VoiceActivityDetector.processChunk st c.1 c.2).1
    simp only [VoiceActivityDetector.run, List.foldl_cons] at h1 h2 h3 h4 ⊢
    refine ⟨?_, ?_, ?_, ?_⟩
    · rw [h1]; simp [VoiceActivityDetector.processChunk]
    · rw [h2]; simp [VoiceActivityDetector.processChunk]; omega
    · rw [h3]
      by_cases hc : ENERGY_THRESHOLD ^ 2 < rmsSq c.1
      · simp [VoiceActivityDetector.processChunk, List.filter_cons, hc]; omega
      · simp [VoiceActivityDetector.processChunk, List.filter_cons, hc]
    · rw [h4]; simp [VoiceActivityDetector.processChunk]

/-- Claim C7, counterexample: after one voiced chunk of one frame at
sample rate 44100, the returned `total_speaking_time_sec` is
`round(1/44100, 2) = 0.0`, not the exact `voice_frames / sample_rate =
1/44100` the claim asserts — `get_statistics` rounds its durations to two
decimals. -/
theorem vad_stats_rounding_counterexample :
    ¬ ((VoiceActivityDetector.getStatistics
        (VoiceActivityDetector.run (VoiceActivityDetector.init 44100)
          [([1], 1)])).totalSpeakingTimeSec = (1 : ℚ) / 44100) := by
  norm_num [VoiceActivityDetector.run, VoiceActivityDetector.processChunk,
    VoiceActivityDetector.getStatistics, VoiceActivityDetector.init,
    rmsSq, listMean, ENERGY_THRESHOLD, pyRound, roundHalfToEven, List.foldl]

/-- Claim C7, amended: voice is reported on a chunk exactly when its RMS
exceeds 0.02 (embedded as the equivalent squared comparison); the counters
accumulate total frames and voiced frames over the trace; the returned
durations are `voice_frames / sample_rate` and `total_frames / sample_rate`
rounded to two decimals; `voice_detected` holds when any voiced frame was
seen; the average volume is symbolically `20*log10(mean retained RMS)`
when some retained RMS is positive and `-100.0` when none is or no chunk
was processed; all-zero samples therefore give `-100.0` and no voice. -/
theorem vad_statistics_spec :
    ∀ (rate : ℚ) (chunks : List (List ℚ × ℕ)),
      0 < rate → (∀ c ∈ chunks, c.1 ≠ []) →
      (∀ (st : VADState) (chunk : List ℚ) (frames : ℕ),
          (VoiceActivityDetector.processChunk st chunk frames).2
            = decide (ENERGY_THRESHOLD ^ 2 < rmsSq chunk))
      ∧ (VoiceActivityDetector.run (VoiceActivityDetector.init rate)
            chunks).totalFrames
          = (chunks.map (fun c => c.2)).sum
      ∧ (VoiceActivityDetector.run (VoiceActivityDetector.init rate)
            chunks).voiceFrames
          = ((chunks.filter (fun c => decide (ENERGY_THRESHOLD ^ 2 < rmsSq c.1))).map
              (fun c => c.2)).sum
      ∧ (VoiceActivityDetector.getStatistics
            (VoiceActivityDetector.run (VoiceActivityDetector.init rate)
              chunks)).totalSpeakingTimeSec
          = pyRound (((((chunks.filter
              (fun c => decide (ENERGY_THRESHOLD ^ 2 < rmsSq c.1))).map
                (fun c => c.2)).sum : ℕ) : ℚ) / rate) 2
      ∧ (VoiceActivityDetector.getStatistics
            (VoiceActivityDetector.run (VoiceActivityDetector.init rate)
              chunks)).totalDurationSec
          = pyRound ((((chunks.map (fun c => c.2)).sum : ℕ) : ℚ) / rate) 2
      ∧ (VoiceActivityDetector.getStatistics
            (VoiceActivityDetector.run (VoiceActivityDetector.init rate)
              chunks)).voiceDetected
          = decide (0 < ((chunks.filter
              (fun c => decide (ENERGY_THRESHOLD ^ 2 < rmsSq c.1))).map
                (fun c => c.2)).sum)
      ∧ ((VoiceActivityDetector.getStatistics
            (VoiceActivityDetector.run (VoiceActivityDetector.init rate)
              chunks)).averageVolume = DbValue.floor
          ↔ chunks = [] ∨ ∀ c ∈ chunks, rmsSq c.1 = 0)
      ∧ (¬ (chunks = [] ∨ ∀ c ∈ chunks, rmsSq c.1 = 0) →
          (VoiceActivityDetector.getStatistics
            (VoiceActivityDetector.run (VoiceActivityDetector.init rate)
              chunks)).averageVolume
            = DbValue.log (chunks.map (fun c => rmsSq c.1)))
      ∧ ((∀ c ∈ chunks, ∀ x ∈ c.1, x = (0 : ℚ)) →
          (VoiceActivityDetector.getStatistics
            (VoiceActivityDetector.run (VoiceActivityDetector.init rate)
              chunks)).averageVolume = DbValue.floor
          ∧ (VoiceActivityDetector.getStatistics
              (VoiceActivityDetector.run (VoiceActivityDetector.init rate)
                chunks)).voiceDetected = false) := by
  intro rate chunks hr hne
  obtain ⟨hsr, htot, hvoice, hrms⟩ :=
    vad_run_spec chunks (VoiceActivityDetector.init rate)
  have hsr' : (VoiceActivityDetector.run (VoiceActivityDetector.init rate)
      chunks).sampleRate = rate := by
    rw [hsr]; rfl
  have htot' : (VoiceActivityDetector.run (VoiceActivityDetector.init rate)
      chunks).totalFrames = (chunks.map (fun c => c.2)).sum := by
    rw [htot]; simp [VoiceActivityDetector.init]
  have hvoice' : (VoiceActivityDetector.run (VoiceActivityDetector.init rate)
      chunks).voiceFrames
        = ((chunks.filter
            (fun c => decide (ENERGY_THRESHOLD ^ 2 < rmsSq c.1))).map
              (fun c => c.2)).sum := by
    rw [hvoice]; simp [VoiceActivityDetector.init]
  have hrms' : (VoiceActivityDetector.run (VoiceActivityDetector.init rate)
      chunks).rmsSqValues = chunks.map (fun c => rmsSq c.1) := by
    rw [hrms]; simp [VoiceActivityDetector.init]
  have hfloor : ((VoiceActivityDetector.getStatistics
        (VoiceActivityDetector.run (VoiceActivityDetector.init rate)
          chunks)).averageVolume = DbValue.floor
      ↔ chunks = [] ∨ ∀ c ∈ chunks, rmsSq c.1 = 0) := by
    simp only [VoiceActivityDetector.getStatistics, hrms']
    by_cases hnil : chunks = []
    · subst hnil; simp
    · have hno : ¬ (chunks.map (fun c => rmsSq c.1)).isEmpty = true := by
        simp [List.isEmpty_iff, hnil]
      by_cases hany :
          (chunks.map (fun c => rmsSq c.1)).any (fun s => decide (0 < s)) = true
      · rw [if_neg hno, if_pos hany]
        obtain ⟨s, hs, hspos⟩ := List.any_eq_true.mp hany
        obtain ⟨c, hc, rfl⟩ := List.mem_map.mp hs
        have hcpos : 0 < rmsSq c.1 := of_decide_eq_true hspos
        constructor
        · intro h; simp at h
        · rintro (h | h)
          · exact absurd h hnil
          · exact absurd (h c hc) (by linarith)
      · rw [if_neg hno, if_neg hany]
        have hzero : ∀ c ∈ chunks, rmsSq c.1 = 0 := by
          intro c hc
          have hnotpos : ¬ (0 < rmsSq c.1) := by
            intro hpos
            apply hany
            exact List.any_eq_true.mpr
              ⟨rmsSq c.1, List.mem_map.mpr ⟨c, hc, rfl⟩, decide_eq_true hpos⟩
          have hge := rmsSq_nonneg c.1
          linarith
        exact ⟨fun _ => Or.inr hzero, fun _ => rfl⟩
  refine ⟨fun st chunk frames => rfl, htot', hvoice', ?_, ?_, ?_, hfloor, ?_, ?_⟩
  · simp only [VoiceActivityDetector.getStatistics, hsr', hvoice']
  · simp only [VoiceActivityDetector.getStatistics, hsr', htot']
  · simp only [VoiceActivityDetector.getStatistics, hsr', hvoice']
    rw [decide_eq_decide]
    exact count_div_rate_pos_iff _ rate hr
  · intro hnot
    simp only [VoiceActivityDetector.getStatistics, hrms']
    push_neg at hnot
    obtain ⟨hnil, c, hc, hcne⟩ := hnot
    have hcpos : 0 < rmsSq c.1 := lt_of_le_of_ne (rmsSq_nonneg c.1) (Ne.symm hcne)
    have hany : (chunks.map (fun c => rmsSq c.1)).any (fun s => decide (0 < s)) = true :=
      List.any_eq_true.mpr
        ⟨rmsSq c.1, List.mem_map.mpr ⟨c, hc, rfl⟩, decide_eq_true hcpos⟩
    have hno : ¬ (chunks.map (fun c => rmsSq c.1)).isEmpty = true := by
      simp [List.isEmpty_iff, hnil]
    simp [hno, hany]
  · intro hz
    have hzero : ∀ c ∈ chunks, rmsSq c.1 = 0 := by
      intro c hc
      unfold rmsSq listMean
      have : ∀ x ∈ c.1.map (fun x => x ^ 2), x = (0 : ℚ) := by
        intro x hx
        obtain ⟨y, hy, rfl⟩ := List.mem_map.mp hx
        rw [hz c hc y hy]
        ring
      rw [List.sum_eq_zero this, zero_div]
    refine ⟨hfloor.mpr (Or.inr hzero), ?_⟩
    simp only [VoiceActivityDetector.getStatistics, hsr, hvoice']
    have hfil : chunks.filter
        (fun c => decide (ENERGY_THRESHOLD ^ 2 < rmsSq c.1)) = [] := by
      rw [List.filter_eq_nil_iff]
      intro c hc
      rw [hzero c hc]
      simp [ENERGY_THRESHOLD]
      norm_num
    rw [hfil]
    simp

/-- Witness for the amended claim C7: one voiced single-frame chunk at
rate 44100. -/
theorem vad_statistics_spec_witness :
    (VoiceActivityDetector.getStatistics
        (VoiceActivityDetector.run (VoiceActivityDetector.init 44100)
          [([1], 1)])).totalDurationSec
      = pyRound ((((([([1], 1)] : List (List ℚ × ℕ)).map (fun c => c.2)).sum : ℕ) : ℚ)
          / 44100) 2 :=
  (vad_statistics_spec 44100 [([1], 1)] (by norm_num)
    (by intro c hc; simp at hc; simp [hc])).2.2.2.2.1

/-- Helper: prepending an element to the list whose last element is taken
does not change the result when a default is supplied for the empty case. -/
theorem getLastD_cons {β : Type} (f : β → Bool) (e : β) (rest : List β)
    (b : Bool) :
    ((rest.getLast?).map f).getD (f e)
      = (((e :: rest).getLast?).map f).getD b := by
  cases rest with
  | nil => rfl
  | cons c l2 =>
    rw [List.getLast?_cons_cons]
    obtain ⟨x, hx⟩ := Option.isSome_iff_exists.mp
      (List.getLast?_isSome.mpr (by simp) :
        ((c :: l2).getLast?).isSome = true)
    rw [hx]
    rfl

/-- Helper: folding `_on_frame` over a frame-entry list from a session that
has a session manager accumulates the counters, keeps the sticky latch as a
disjunction, sets the instantaneous multiple-faces value to the last
entry's, and leaves the audio latch and start time untouched. -/
theorem runFrames_spec (entries : List FrameEntry) :
    ∀ (st : CaptureSessionState) (sm : SessionManagerState),
      st.sessionManager = some sm →
      ((CaptureSession.runFrames st entries).sessionManager.isSome = true)
      ∧ (CaptureSession.runFrames st entries).totalFrameCount
          = st.totalFrameCount + entries.length
      ∧ (CaptureSession.runFrames st entries).facePresentCount
          = st.facePresentCount
              + (entries.filter (fun e => e.facePresent)).length
      ∧ (CaptureSession.runFrames st entries).multipleFacesLatch
          = (st.multipleFacesLatch || entries.any (fun e => e.multipleFaces))
      ∧ (CaptureSession.runFrames st entries).multipleFacesDetected
          = ((entries.getLast?).map (fun e => e.multipleFaces)).getD
              st.multipleFacesDetected
      ∧ (CaptureSession.runFrames st entries).audioInterruptions
          = st.audioInterruptions
      ∧ (CaptureSession.runFrames st entries).startTime = st.startTime := by
  induction entries with
  | nil => intro st sm h; simp [CaptureSession.runFrames, h]
  | cons e rest ih =>
    intro st sm h
    have hstep : CaptureSession.runFrames st (e :: rest)
        = CaptureSession.runFrames ((CaptureSession.onFrame st e).1) rest := by
      simp [CaptureSession.runFrames, List.foldl_cons]
    have hframe : (CaptureSession.onFrame st e).1.sessionManager
        = some (SessionManager.incrementFrameCount sm) := by
      simp [CaptureSession.onFrame, h]
    obtain ⟨h1, h2, h3, h4, h5, h6, h7⟩ :=
      ih ((CaptureSession.onFrame st e).1)
        (SessionManager.incrementFrameCount sm) hframe
    rw [hstep]
    refine ⟨h1, ?_, ?_, ?_, ?_, ?_, ?_⟩
    · rw [h2]; simp [CaptureSession.onFrame, h]; omega
    · rw [h3]
      by_cases hf : e.facePresent <;>
        · simp [CaptureSession.onFrame, h, hf, List.filter_cons]
          try omega
    · rw [h4]
      have : (CaptureSession.onFrame st e).1.multipleFacesLatch
          = (st.multipleFacesLatch || e.multipleFaces) := by
        simp [CaptureSession.onFrame, h]
        cases e.multipleFaces <;> simp
      rw [this, List.any_cons, Bool.or_assoc, Bool.or_comm e.multipleFaces]
    · rw [h5]
      have : (CaptureSession.onFrame st e).1.multipleFacesDetected
          = e.multipleFaces := by
        simp [CaptureSession.onFrame, h]
      rw [this]
      exact getLastD_cons (fun e => e.multipleFaces) e rest _
    · rw [h6]; simp [CaptureSession.onFrame, h]
    · rw [h7]; simp [CaptureSession.onFrame, h]

/-- Claim C1, counterexample: a session processes a frame reporting
multiple faces and then a single-face frame; the next snapshot's
`integrity.multiple_faces` is `false`, not the latched `true` the claim
asserts — `get_current_signals` publishes the instantaneous
`_multiple_faces_detected`, not `_multiple_faces_latch`. -/
theorem multipleFaces_snapshot_counterexample :
    (CaptureSession.getCurrentSignals
        (CaptureSession.runFrames
          ({ CaptureSession.init 0 with
              sessionManager := some ({} : SessionManagerState) })
          [{ facePresent := true, eyeDirection := "center", blink := false,
             headMovement := "low", multipleFaces := true },
           { facePresent := true, eyeDirection := "center", blink := false,
             headMovement := "low", multipleFaces := false }]) 5).integrity.multipleFaces
      = false := by
  norm_num [CaptureSession.getCurrentSignals, CaptureSession.runFrames,
    CaptureSession.onFrame, CaptureSession.init,
    SessionManager.incrementFrameCount, List.foldl, optQTruthy,
    roundHalfToEven]

/-- Claim C1, amended: a fresh `CaptureSession` starts with both the
snapshot flag and the internal latch false; over any frame run the
persistence latch `_multiple_faces_latch` is sticky — true exactly when
some processed entry reported multiple faces — while the snapshot's
`integrity.multiple_faces` equals the instantaneous value of the most
recent frame (the prior value when no frame was processed), so it reverts
to false on a later single-face frame. -/
theorem multipleFaces_latch_spec :
    (∀ t now : ℚ,
        (CaptureSession.getCurrentSignals (CaptureSession.init t)
            now).integrity.multipleFaces = false
        ∧ (CaptureSession.init t).multipleFacesLatch = false)
    ∧ (∀ (st : CaptureSessionState) (sm : SessionManagerState)
          (entries : List FrameEntry), st.sessionManager = some sm →
        (CaptureSession.runFrames st entries).multipleFacesLatch
          = (st.multipleFacesLatch || entries.any (fun e => e.multipleFaces))
        ∧ ∀ now : ℚ,
            (CaptureSession.getCurrentSignals
                (CaptureSession.runFrames st entries) now).integrity.multipleFaces
              = ((entries.getLast?).map (fun e => e.multipleFaces)).getD
                  st.multipleFacesDetected) := by
  constructor
  · intro t now
    exact ⟨rfl, rfl⟩
  · intro st sm entries h
    obtain ⟨_, _, _, hlatch, hdet, _, _⟩ := runFrames_spec entries st sm h
    refine ⟨hlatch, fun now => ?_⟩
    simpa [CaptureSession.getCurrentSignals] using hdet

/-- Witness for the amended claim C1: a session with a session manager and
a single multi-face entry. -/
theorem multipleFaces_latch_spec_witness :
    (CaptureSession.runFrames
        ({ CaptureSession.init 0 with
            sessionManager := some ({} : SessionManagerState) })
        [{ facePresent := true, eyeDirection := "center", blink := false,
           headMovement := "low", multipleFaces := true }]).multipleFacesLatch
      = (({ CaptureSession.init 0 with
            sessionManager := some ({} : SessionManagerState) }
              : CaptureSessionState).multipleFacesLatch
          || ([{ facePresent := true, eyeDirection := "center", blink := false,
                 headMovement := "low", multipleFaces := true }]
              : List FrameEntry).any (fun e => e.multipleFaces)) :=
  ((multipleFaces_latch_spec.2
      ({ CaptureSession.init 0 with
          sessionManager := some ({} : SessionManagerState) })
      ({} : SessionManagerState)
      [{ facePresent := true, eyeDirection := "center", blink := false,
         headMovement := "low", multipleFaces := true }] rfl).1)

/-- Claim C5: starting from a fresh session (with its collaborating session
manager attached), after any replayed entry sequence the counters hold the
number of frames and of face-present frames, and the snapshot's
`face_continuous` is recomputed on read as the cumulative ratio test —
true exactly when the ratio exceeds 0.9, vacuously true before any
frame. -/
theorem faceContinuity_ratio_spec :
    ∀ (sm : SessionManagerState) (t now : ℚ) (entries : List FrameEntry),
      (CaptureSession.runFrames
          ({ CaptureSession.init t with sessionManager := some sm })
          entries).totalFrameCount = entries.length
      ∧ (CaptureSession.runFrames
          ({ CaptureSession.init t with sessionManager := some sm })
          entries).facePresentCount
          = (entries.filter (fun e => e.facePresent)).length
      ∧ (CaptureSession.getCurrentSignals
          (CaptureSession.runFrames
            ({ CaptureSession.init t with sessionManager := some sm })
            entries) now).integrity.faceContinuous
          = (if 0 < entries.length then
              decide ((9 : ℚ)/10
                < ((entries.filter (fun e => e.facePresent)).length : ℚ)
                    / (entries.length : ℚ))
             else true) := by
  intro sm t now entries
  obtain ⟨_, htot, hface, _, _, _, _⟩ :=
    runFrames_spec entries
      ({ CaptureSession.init t with sessionManager := some sm }) sm rfl
  have htot' : (CaptureSession.runFrames
      ({ CaptureSession.init t with sessionManager := some sm })
      entries).totalFrameCount = entries.length := by
    rw [htot]; simp [CaptureSession.init]
  have hface' : (CaptureSession.runFrames
      ({ CaptureSession.init t with sessionManager := some sm })
      entries).facePresentCount
        = (entries.filter (fun e => e.facePresent)).length := by
    rw [hface]; simp [CaptureSession.init]
  refine ⟨htot', hface', ?_⟩
  simp only [CaptureSession.getCurrentSignals, htot', hface']

/-- Helper: after removing a key, the registry no longer contains it. -/
theorem containsKey_clear (reg : Registry) (cid : String) :
    containsKey (clear_session reg cid) cid = false := by
  rw [Bool.eq_false_iff]
  intro hc
  obtain ⟨p, hp, hpc⟩ := List.any_eq_true.mp hc
  have hne := (List.mem_filter.mp hp).2
  simp only [decide_eq_true_eq] at hne hpc
  exact hne hpc

/-- Helper: a successful exact lookup means the key is registered. -/
theorem containsKey_of_lookup (reg : Registry) (cid : String)
    (s : CaptureSessionState) (h : lookupReg reg cid = some s) :
    containsKey reg cid = true := by
  unfold lookupReg at h
  cases hf : reg.find? (fun p => decide (p.1 = cid)) with
  | none => rw [hf] at h; simp at h
  | some p =>
    have hmem := List.mem_of_find?_eq_some hf
    have hpred := List.find?_some hf
    exact List.any_eq_true.mpr ⟨p, hmem, hpred⟩

/-- Claim C2, counterexample: with a stopped session registered first and a
RUNNING session registered under the empty id, starting a session for the
empty id is not rejected: the `get_session` fallback returns the stopped
arbitrary session, the duplicate check passes, and `create_session`
overwrites the running entry — the registry is mutated and no error is
raised, contradicting the claim for this candidate id. -/
theorem duplicate_check_counterexample :
    lookupReg
        [("a", CaptureSession.init 0),
         ("", { CaptureSession.init 0 with isRunning := true })] ""
      = some ({ CaptureSession.init 0 with isRunning := true })
    ∧ (start_session_create
        [("a", CaptureSession.init 0),
         ("", { CaptureSession.init 0 with isRunning := true })] "" 0).2
      = Except.ok (CaptureSession.init 0)
    ∧ ¬ ((start_session_create
        [("a", CaptureSession.init 0),
         ("", { CaptureSession.init 0 with isRunning := true })] "" 0).1
      = [("a", CaptureSession.init 0),
         ("", { CaptureSession.init 0 with isRunning := true })]) := by
  refine ⟨?_, ?_, ?_⟩ <;>
    simp [lookupReg, start_session_create, get_session, create_session,
      dictInsert, containsKey, CaptureSession.init, clear_session]

/-- Claim C2, amended: for every non-empty candidate id with a RUNNING
registered session, the start endpoint rejects (HTTP 400, the spec's
`DuplicateSessionError`) and leaves the registry unchanged; once that
session is removed (after being stopped), creating a session for the same
id succeeds.  For the empty id the duplicate check can miss the running
session, as the counterexample shows. -/
theorem duplicate_check_spec :
    ∀ (reg : Registry) (cid : String) (now : ℚ) (s : CaptureSessionState),
      cid ≠ "" →
      (lookupReg reg cid = some s → s.isRunning = true →
        start_session_create reg cid now
          = (reg, Except.error StartError.duplicateSession))
      ∧ (start_session_create (clear_session reg cid) cid now).2
          = Except.ok (CaptureSession.init now) := by
  intro reg cid now s hcid
  constructor
  · intro hl hrun
    have hk := containsKey_of_lookup reg cid s hl
    simp [start_session_create, get_session, hcid, hk, hl, hrun]
  · have hk := containsKey_clear reg cid
    simp [start_session_create, get_session, hcid, hk, create_session]

/-- Witness for the amended claim C2: a one-session registry whose session
is running, created for the same non-empty id. -/
theorem duplicate_check_spec_witness :
    start_session_create
        [("x", { CaptureSession.init 0 with isRunning := true })] "x" 1
      = ([("x", { CaptureSession.init 0 with isRunning := true })],
         Except.error StartError.duplicateSession) :=
  (duplicate_check_spec
      [("x", { CaptureSession.init 0 with isRunning := true })] "x" 1
      ({ CaptureSession.init 0 with isRunning := true }) (by decide)).1
    (by simp [lookupReg]) rfl

/-- Helper: when a key is absent, filtering it away is the identity. -/
theorem lookup_none_filter_id (reg : Registry) (cid : String)
    (h : lookupReg reg cid = none) :
    reg.filter (fun p => decide (p.1 ≠ cid)) = reg := by
  rw [List.filter_eq_self]
  intro p hp
  unfold lookupReg at h
  cases hf : reg.find? (fun p => decide (p.1 = cid)) with
  | some q => rw [hf] at h; simp at h
  | none =>
    have := List.find?_eq_none.mp hf p hp
    simpa using this

/-- Helper: the reaper's deletion loop removes exactly the collected keys
(each `stop` attempt's outcome is discarded by the `try/except`). -/
theorem reap_fold_eq_filter (now : ℚ) (keys : List String) :
    ∀ reg : Registry,
      keys.foldl
        (fun r cid =>
          match lookupReg r cid with
          | some session =>
            let _stopResult := CaptureSession.stop session now
            clear_session r cid
          | none => r) reg
      = reg.filter (fun p => decide (p.1 ∉ keys)) := by
  induction keys with
  | nil => intro reg; simp
  | cons k ks ih =>
    intro reg
    rw [List.foldl_cons]
    have hstep :
        (match lookupReg reg k with
          | some session =>
            let _stopResult := CaptureSession.stop session now
            clear_session reg k
          | none => reg)
          = reg.filter (fun p => decide (p.1 ≠ k)) := by
      cases hf : lookupReg reg k with
      | none => simp only [hf]; exact (lookup_none_filter_id reg k hf).symm
      | some s => simp only [hf]; rfl
    rw [hstep, ih, List.filter_filter]
    apply List.filter_congr
    intro p hp
    by_cases h1 : p.1 = k <;> by_cases h2 : p.1 ∈ ks <;>
      simp [h1, h2, List.mem_cons]

/-- Claim C8: a single reaper tick removes from the registry exactly the
sessions whose heartbeat age exceeds 60 seconds (strictly), regardless of
their running state and without any client stop; the per-session `stop`
attempt is performed and its result — an exception for every session this
code builds — is discarded, never preventing the removal. -/
theorem reaper_tick_spec :
    ∀ (reg : Registry) (now : ℚ),
      (reg.map (fun p => p.1)).Nodup →
      session_cleanup_tick reg now
        = reg.filter (fun p => decide (now - p.2.lastHeartbeat ≤ 60)) := by
  intro reg now hnodup
  unfold session_cleanup_tick
  rw [reap_fold_eq_filter now _ reg]
  apply List.filter_congr
  intro p hp
  rw [decide_eq_decide]
  constructor
  · intro hnot
    by_contra hgt
    push_neg at hgt
    exact hnot (List.mem_map.mpr
      ⟨p, List.mem_filter.mpr ⟨hp, decide_eq_true hgt⟩, rfl⟩)
  · intro hle hmem
    obtain ⟨q, hq, hq1⟩ := List.mem_map.mp hmem
    have hqreg := (List.mem_filter.mp hq).1
    have hqstale := of_decide_eq_true (List.mem_filter.mp hq).2
    have hqp : q = p := List.inj_on_of_nodup_map hnodup hqreg hp hq1
    rw [hqp] at hqstale
    linarith

/-- Witness for claim C8: one stale session (heartbeat age 70) and one
fresh session (age 20) at tick time 70. -/
theorem reaper_tick_spec_witness :
    session_cleanup_tick
        [("a", CaptureSession.init 0), ("b", CaptureSession.init 50)] 70
      = ([("a", CaptureSession.init 0), ("b", CaptureSession.init 50)]
          : Registry).filter
          (fun p => decide ((70 : ℚ) - p.2.lastHeartbeat ≤ 60)) :=
  reaper_tick_spec
    [("a", CaptureSession.init 0), ("b", CaptureSession.init 50)] 70
    (by simp)

end Interview
